import Mathlib

/-!
Verification of the RFQ reconciliation backend (src/backend/server.js).

The deterministic core of the server is shallowly embedded here:
* `Js` models the values produced by `JSON.parse` (JSON has no `undefined`,
  so an absent value is modelled as `Option.none` at use sites).
* `Js.truthy`, `Js.getOwn`, `Js.getProp`, `optChain`, `jsOr` model the
  JavaScript truthiness, property access, optional chaining and `||` used by
  the server.
* `jsonParse` models `JSON.parse` (it either returns a `Js` value or throws).
* `mapLineItem`, `buildItemsFrom`, `runParse`, `handleParse` embed the
  Parse/Edit endpoint (server.js lines 38-191); `getRfq` embeds the
  GET /api/rfq/:id endpoint (lines 224-228).
The external Gemini call is an oracle: its outcome (a thrown error, or a
response whose `.text` is an optional string) is a parameter of the pipeline.
`Date.now()` is likewise a parameter (one timestamp per observation point).
-/

/-- Model of a JavaScript value as produced by `JSON.parse`. -/
inductive Js where
  | null
  | bool (b : Bool)
  | num (q : ℚ)
  | str (s : String)
  | arr (elems : List Js)
  | obj (fields : List (String × Js))

/-- JavaScript truthiness (ToBoolean) restricted to JSON-representable
values; JSON cannot produce `undefined` or `NaN`. -/
def Js.truthy : Js → Bool
  | .null => false
  | .bool b => b
  | .num q => decide (q ≠ 0)
  | .str s => decide (s ≠ "")
  | .arr _ => true
  | .obj _ => true

/-- Own-property lookup on an object field list.  `JSON.parse` keeps the
last binding for a duplicated key, so the lookup returns the last match. -/
def lookupLast (fields : List (String × Js)) (k : String) : Option Js :=
  fields.foldl (fun acc p => if p.1 = k then some p.2 else acc) none

/-- Property access `v[k]` on a non-nullish value: a key lookup on objects,
`undefined` (`none`) on primitives and arrays (no string key used by the
server is an array index or inherited member). -/
def Js.getOwn : Js → String → Option Js
  | .obj fields, k => lookupLast fields k
  | _, _ => none

/-- Property access `v.k` as the server performs it: accessing a property of
`null` throws a `TypeError`; otherwise it yields the property value or
`undefined` (`none`). -/
def Js.getProp : Js → String → Except String (Option Js)
  | .null, _ => .error ("Cannot read properties of null")
  | v, k => .ok (v.getOwn k)

/-- JavaScript `x || d` for a possibly-`undefined` `x`. -/
def jsOr (x : Option Js) (d : Js) : Js :=
  match x with
  | some v => if v.truthy then v else d
  | none => d

/-- The truthy values of a possibly-`undefined` value: `some v` iff `x` is
present and truthy. `jsOr x d` equals `(truthyOpt x).getD d`. -/
def truthyOpt (x : Option Js) : Option Js :=
  match x with
  | some v => if v.truthy then some v else none
  | none => none

/-- Optional chaining `x?.k`: `undefined` when `x` is nullish, plain
property access otherwise (which cannot throw on a non-nullish base). -/
def optChain (x : Option Js) (k : String) : Option Js :=
  match x with
  | none => none
  | some .null => none
  | some v => v.getOwn k

/-! ### The JavaScript number a comparison sees

`isEditMode` is computed as `currentItems.length > 0`; embedding that
comparison requires the ToNumber coercion on the JSON-representable values
that `.length` can produce. -/

/-- Result of ToNumber: JavaScript numbers include infinities and NaN even
though JSON values do not. -/
inductive JsNum where
  | nan
  | posInf
  | negInf
  | fin (q : ℚ)

/-- The JavaScript comparison `x > 0` on a converted number. -/
def JsNum.gtZero : JsNum → Bool
  | .posInf => true
  | .fin q => decide (0 < q)
  | _ => false

/-- WhiteSpace/LineTerminator characters trimmed by ToNumber. -/
def isJsWs (c : Char) : Bool :=
  c = ' ' ∨ c = '\t' ∨ c = '\n' ∨ c = '\r' ∨ c = '\x0b' ∨ c = '\x0c' ∨ c = '\u00A0'

/-- Split the longest prefix of decimal digits off a character list,
returning their values. -/
def leadingDigits : List Char → List Nat × List Char
  | c :: cs =>
    if c.isDigit then
      let (ds, rest) := leadingDigits cs
      ((c.toNat - 48) :: ds, rest)
    else ([], c :: cs)
  | [] => ([], [])

/-- The natural number denoted by a digit-value list, most significant
first. -/
def natFromDigits (base : Nat) (ds : List Nat) : Nat :=
  ds.foldl (fun a d => a * base + d) 0

/-- Value of one digit character in the given base (supports hexadecimal
letters in either case). -/
def radixDigitVal (base : Nat) (c : Char) : Option Nat :=
  let v :=
    if c.isDigit then some (c.toNat - 48)
    else if 'a' ≤ c ∧ c ≤ 'f' then some (c.toNat - 87)
    else if 'A' ≤ c ∧ c ≤ 'F' then some (c.toNat - 55)
    else none
  match v with
  | some d => if d < base then some d else none
  | none => none

/-- The natural number denoted by a non-empty all-valid digit string in the
given base; `none` otherwise. -/
def radixNat (base : Nat) (cs : List Char) : Option Nat :=
  cs.foldl
    (fun acc c =>
      match acc, radixDigitVal base c with
      | some a, some d => some (a * base + d)
      | _, _ => none)
    (if cs = [] then none else some 0)

/-- An unsigned decimal mantissa: `digits`, `digits.`, `digits.digits` or
`.digits`. -/
def decimalMantissa : List Char → Option (ℚ × List Char)
  | '.' :: rest =>
    let (fs, r2) := leadingDigits rest
    if fs = [] then none
    else some ((natFromDigits 10 fs : ℚ) / (10 : ℚ) ^ fs.length, r2)
  | cs =>
    let (ds, r1) := leadingDigits cs
    if ds = [] then none
    else
      match r1 with
      | '.' :: rest =>
        let (fs, r2) := leadingDigits rest
        some ((natFromDigits 10 ds : ℚ) + (natFromDigits 10 fs : ℚ) / (10 : ℚ) ^ fs.length, r2)
      | _ => some ((natFromDigits 10 ds : ℚ), r1)

/-- An optional exponent part `e`/`E`, optional sign, digits; absent
exponent denotes 0, a malformed exponent is `none`. -/
def decimalExponent : List Char → Option (Int × List Char)
  | c :: rest =>
    if c = 'e' ∨ c = 'E' then
      let (sgn, r1) : Bool × List Char :=
        match rest with
        | '-' :: r => (true, r)
        | '+' :: r => (false, r)
        | _ => (false, rest)
      let (ds, r2) := leadingDigits r1
      if ds = [] then none
      else some ((if sgn then -(natFromDigits 10 ds : Int) else (natFromDigits 10 ds : Int)), r2)
    else some (0, c :: rest)
  | [] => some (0, [])

/-- A signed decimal literal (or `Infinity`) consuming the entire input, as
ToNumber reads it after trimming. -/
def decimalToNum (cs : List Char) : JsNum :=
  let (sgn, cs1) : Bool × List Char :=
    match cs with
    | '-' :: r => (true, r)
    | '+' :: r => (false, r)
    | _ => (false, cs)
  if cs1 = ['I', 'n', 'f', 'i', 'n', 'i', 't', 'y'] then
    (if sgn then .negInf else .posInf)
  else
    match decimalMantissa cs1 with
    | none => .nan
    | some (m, r1) =>
      match decimalExponent r1 with
      | none => .nan
      | some (e, r2) =>
        if r2 = [] then .fin ((if sgn then -m else m) * (10 : ℚ) ^ e) else .nan

/-- ToNumber on a string: trim, empty means 0, radix prefixes `0x`/`0o`/`0b`
(unsigned), otherwise a signed decimal literal or `Infinity`; anything else
is NaN. -/
def strToNumber (s : String) : JsNum :=
  let cs := ((s.data.dropWhile isJsWs).reverse.dropWhile isJsWs).reverse
  match cs with
  | [] => .fin 0
  | '0' :: x :: rest =>
    if x = 'x' ∨ x = 'X' then
      (match radixNat 16 rest with | some n => .fin n | none => .nan)
    else if x = 'o' ∨ x = 'O' then
      (match radixNat 8 rest with | some n => .fin n | none => .nan)
    else if x = 'b' ∨ x = 'B' then
      (match radixNat 2 rest with | some n => .fin n | none => .nan)
    else decimalToNum cs
  | _ => decimalToNum cs

/-- ToNumber of a single array element via its string form (`String([x])`
is `String(x)`): `null` stringifies to the empty string, numbers and
strings round-trip, booleans and objects become non-numeric text. -/
def Js.singleToNumber : Js → JsNum
  | .null => .fin 0
  | .num q => .fin q
  | .str s => strToNumber s
  | .arr [] => .fin 0
  | .arr [x] => Js.singleToNumber x
  | _ => .nan

/-- ToNumber on a JSON-representable value (arrays coerce through their
joined string form: empty array is 0, a multi-element join contains a comma
and is NaN, objects stringify to bracketed text and are NaN). -/
def Js.toNumber : Js → JsNum
  | .null => .fin 0
  | .bool b => .fin (if b then 1 else 0)
  | .num q => .fin q
  | .str s => strToNumber s
  | .arr l => Js.singleToNumber (.arr l)
  | .obj _ => .nan

/-- The JavaScript comparison `x > 0` where `x` may be `undefined`
(`undefined` coerces to NaN, so the comparison is false). -/
def gtZeroJs (x : Option Js) : Bool :=
  match x with
  | none => false
  | some v => (Js.toNumber v).gtZero

/-- The `.length` property: array and string lengths, an own `length` key
on plain objects, `undefined` on other primitives. -/
def Js.lengthVal : Js → Option Js
  | .arr l => some (.num l.length)
  | .str s => some (.num s.length)
  | .obj fields => lookupLast fields ("length")
  | _ => none

/-! ### `JSON.parse`

A recursive-descent embedding of the JSON grammar.  Parsing either returns
the parsed value (`Except.ok`) or throws a `SyntaxError` (`Except.error`);
the exact message texts are not load-bearing.  Recursion is bounded by a
fuel argument that `jsonParse` instantiates generously (every pair of
recursive calls consumes at least one input character, so well-formed input
never exhausts it). -/

/-- JSON insignificant whitespace. -/
def isJsonWs (c : Char) : Bool :=
  c = ' ' ∨ c = '\t' ∨ c = '\n' ∨ c = '\r'

/-- Drop leading JSON whitespace. -/
def skipWs : List Char → List Char
  | c :: cs => if isJsonWs c then skipWs cs else c :: cs
  | [] => []

/-- The integer part of a JSON number: `0`, or a nonzero digit followed by
digits (leading zeros are not valid JSON). -/
def jsonIntPart : List Char → Option (Nat × List Char)
  | '0' :: rest => some (0, rest)
  | c :: rest =>
    if c.isDigit then
      let (ds, r) := leadingDigits (c :: rest)
      some (natFromDigits 10 ds, r)
    else none
  | [] => none

/-- A JSON number after the optional leading minus sign. -/
def parseJsonNumber (cs : List Char) : Except String (ℚ × List Char) :=
  let (neg, cs1) : Bool × List Char :=
    match cs with
    | '-' :: r => (true, r)
    | _ => (false, cs)
  match jsonIntPart cs1 with
  | none => .error ("Unexpected token in JSON")
  | some (ip, r1) =>
    match (match r1 with
           | '.' :: rest =>
             let (fs, r2) := leadingDigits rest
             if fs = [] then none
             else some ((natFromDigits 10 fs : ℚ) / (10 : ℚ) ^ fs.length, r2)
           | _ => some ((0 : ℚ), r1)) with
    | none => .error ("Unexpected token in JSON")
    | some (fp, r2) =>
      match decimalExponent r2 with
      | none => .error ("Unexpected token in JSON")
      | some (e, r3) =>
        let m : ℚ := (ip : ℚ) + fp
        .ok ((if neg then -m else m) * (10 : ℚ) ^ e, r3)

/-- The body of a JSON string after the opening quote, with escape
sequences.  Surrogate pairs written as two `\u` escapes are combined; a
lone surrogate (not representable as a Lean scalar value) is replaced by
U+FFFD. -/
def parseStringBody : List Char → Except String (List Char × List Char)
  | [] => .error ("Unterminated string in JSON")
  | c :: rest =>
    if c = '"' then .ok ([], rest)
    else if c = '\\' then
      match rest with
      | [] => .error ("Unterminated string in JSON")
      | e :: rest2 =>
        if e = '"' ∨ e = '\\' ∨ e = '/' then
          (parseStringBody rest2).map (fun p => (e :: p.1, p.2))
        else if e = 'b' then
          (parseStringBody rest2).map (fun p => ('\x08' :: p.1, p.2))
        else if e = 'f' then
          (parseStringBody rest2).map (fun p => ('\x0c' :: p.1, p.2))
        else if e = 'n' then
          (parseStringBody rest2).map (fun p => ('\n' :: p.1, p.2))
        else if e = 'r' then
          (parseStringBody rest2).map (fun p => ('\r' :: p.1, p.2))
        else if e = 't' then
          (parseStringBody rest2).map (fun p => ('\t' :: p.1, p.2))
        else if e = 'u' then
          match rest2 with
          | a :: b :: c2 :: d :: rest3 =>
            match radixDigitVal 16 a, radixDigitVal 16 b,
                  radixDigitVal 16 c2, radixDigitVal 16 d with
            | some h1, some h2, some h3, some h4 =>
              let n := ((h1 * 16 + h2) * 16 + h3) * 16 + h4
              if 0xD800 ≤ n ∧ n ≤ 0xDFFF then
                -- A UTF-16 surrogate escape.  Lean characters are Unicode
                -- scalar values, so this embedding replaces surrogates
                -- (paired astral-plane escapes included) with U+FFFD; no
                -- key or value inspected by the server contains one.
                (parseStringBody rest3).map (fun p => ('�' :: p.1, p.2))
              else
                (parseStringBody rest3).map (fun p => (Char.ofNat n :: p.1, p.2))
            | _, _, _, _ => .error ("Bad Unicode escape in JSON")
          | _ => .error ("Bad Unicode escape in JSON")
        else .error ("Bad escaped character in JSON")
    else if c.toNat < 0x20 then .error ("Bad control character in JSON string")
    else (parseStringBody rest).map (fun p => (c :: p.1, p.2))

mutual

/-- One JSON value, leaving the rest of the input. -/
def parseVal : Nat → List Char → Except String (Js × List Char)
  | 0, _ => .error ("JSON input is too deeply nested")
  | fuel + 1, cs =>
    match skipWs cs with
    | [] => .error ("Unexpected end of JSON input")
    | c :: rest =>
      if c = '\x7b' then
        match skipWs rest with
        | '\x7d' :: r2 => .ok (.obj [], r2)
        | r2 => (parseMembers fuel r2).map (fun p => (.obj p.1, p.2))
      else if c = '[' then
        match skipWs rest with
        | ']' :: r2 => .ok (.arr [], r2)
        | r2 => (parseElems fuel r2).map (fun p => (.arr p.1, p.2))
      else if c = '"' then
        (parseStringBody rest).map (fun p => (.str (List.asString p.1), p.2))
      else if c = 't' then
        match rest with
        | 'r' :: 'u' :: 'e' :: r => .ok (.bool true, r)
        | _ => .error ("Unexpected token in JSON")
      else if c = 'f' then
        match rest with
        | 'a' :: 'l' :: 's' :: 'e' :: r => .ok (.bool false, r)
        | _ => .error ("Unexpected token in JSON")
      else if c = 'n' then
        match rest with
        | 'u' :: 'l' :: 'l' :: r => .ok (.null, r)
        | _ => .error ("Unexpected token in JSON")
      else
        (parseJsonNumber (c :: rest)).map (fun p => (.num p.1, p.2))

/-- The members of a JSON object after the opening brace of a non-empty
object. -/
def parseMembers : Nat → List Char → Except String (List (String × Js) × List Char)
  | 0, _ => .error ("JSON input is too deeply nested")
  | fuel + 1, cs =>
    match skipWs cs with
    | '"' :: rest =>
      match parseStringBody rest with
      | .error e => .error e
      | .ok (k, r1) =>
        match skipWs r1 with
        | ':' :: r2 =>
          match parseVal fuel r2 with
          | .error e => .error e
          | .ok (v, r3) =>
            match skipWs r3 with
            | ',' :: r4 =>
              (parseMembers fuel r4).map (fun p => ((List.asString k, v) :: p.1, p.2))
            | '\x7d' :: r4 => .ok ([(List.asString k, v)], r4)
            | _ => .error ("Expected comma or closing brace after JSON object member")
        | _ => .error ("Expected colon after JSON object key")
    | _ => .error ("Expected a string as a JSON object key")

/-- The elements of a JSON array after the opening bracket of a non-empty
array. -/
def parseElems : Nat → List Char → Except String (List Js × List Char)
  | 0, _ => .error ("JSON input is too deeply nested")
  | fuel + 1, cs =>
    match parseVal fuel cs with
    | .error e => .error e
    | .ok (v, r1) =>
      match skipWs r1 with
      | ',' :: r2 => (parseElems fuel r2).map (fun p => (v :: p.1, p.2))
      | ']' :: r2 => .ok ([v], r2)
      | _ => .error ("Expected comma or closing bracket after JSON array element")

end

/-- `JSON.parse`: parse one value and require only whitespace to follow. -/
def jsonParse (s : String) : Except String Js :=
  match parseVal (2 * s.data.length + 8) s.data with
  | .error e => .error e
  | .ok (v, rest) =>
    match skipWs rest with
    | [] => .ok v
    | _ => .error ("Unexpected non-whitespace character after JSON data")

/-! ### The RFQ record shape built by the Parse/Edit endpoint

These structures mirror the object literals of server.js lines 152-180.
Fields whose value can be any JavaScript value flowing out of the extraction
output are typed `Js` (or `Option Js` where the code can leave them
`undefined`). -/

/-- One `size` dimension: `{ value: ..., unit: ... }` (server.js 159-161).
Either field is omitted from the serialized record when `undefined`. -/
structure Dimension where
  value : Option Js
  unit : Option Js

/-- The `size` record of a line item (server.js 158-162). -/
structure Size where
  outer_diameter : Dimension
  wall_thickness : Dimension
  length : Dimension

/-- One mapped line item (server.js 153-165). -/
structure LineItem where
  item_id : Js
  line : Nat
  description : Js
  material_grade : Js
  size : Size
  quantity : Option Js
  uom : Option Js

/-- The `commercial` record (server.js 173-178); note the camel-cased
`paymentTerm` and `otherRequirements` keys used by the code. -/
structure Commercial where
  destination : Js
  incoterm : Js
  paymentTerm : Js
  otherRequirements : Js

/-- The stored and returned RFQ record (server.js 170-180). -/
structure Rfq where
  rfq_id : String
  project_name : Option Js
  commercial : Commercial
  line_items : List LineItem

/-- The request-body fields of the Parse/Edit endpoint (multipart form
fields arrive as strings or are absent). -/
structure ParseRequest where
  text : Option String
  projectName : Option String
  currentLineItems : Option String
  lang : Option String
  rfqId : Option String

/-- server.js 44-47: `currentItems` starts as `[]`; a truthy
`currentLineItems` string is parsed, and a parse failure is swallowed,
leaving `[]`. -/
def currentItemsOf (req : ParseRequest) : Js :=
  match req.currentLineItems with
  | some s =>
    if s = "" then .arr []
    else
      match jsonParse s with
      | .ok v => v
      | .error _ => .arr []
  | none => .arr []

/-- server.js 49: `isEditMode = currentItems.length > 0` (it only shapes the
prompt sent to the external extraction service). -/
def isEditMode (req : ParseRequest) : Bool :=
  gtZeroJs (Js.lengthVal (currentItemsOf req))

/-- The identifier minted for an item without a truthy `item_id`
(server.js 154): `` `L${Date.now()}-${idx}` ``. -/
def mintedId (now idx : Nat) : String :=
  "L" ++ Nat.repr now ++ "-" ++ Nat.repr idx

/-- `String.prototype.slice(-4)`: the last four characters (the whole
string when shorter). -/
def sliceLast4 (s : String) : String :=
  List.asString (s.data.drop (s.data.length - 4))

/-- server.js 168: `req.body.rfqId || `RFQ-${Date.now().toString().slice(-4)}``. -/
def rfqIdOf (rid : Option String) (rfqNow : Nat) : String :=
  match rid with
  | some s => if s = "" then "RFQ-" ++ sliceLast4 (toString rfqNow) else s
  | none => "RFQ-" ++ sliceLast4 (toString rfqNow)

/-- server.js 153-165: map one raw extracted item.  Each property access on
`li` throws when `li` is `null` (the first one, `li.item_id`, is reached
first); `now` is the value `Date.now()` would yield inside this callback. -/
def mapLineItem (now idx : Nat) (li : Js) : Except String LineItem := do
  let rawId ← li.getProp ("item_id")
  let desc ← li.getProp ("description")
  let grade ← li.getProp ("material_grade")
  let sizeOpt ← li.getProp ("size")
  let qty ← li.getProp ("quantity")
  let uom ← li.getProp ("uom")
  pure {
    item_id := jsOr rawId (.str (mintedId now idx))
    line := idx + 1
    description := jsOr desc (.str (""))
    material_grade := jsOr grade (.str (""))
    size := {
      outer_diameter := { value := optChain sizeOpt ("od_val"), unit := optChain sizeOpt ("od_unit") }
      wall_thickness := { value := optChain sizeOpt ("wt_val"), unit := optChain sizeOpt ("wt_unit") }
      length := { value := optChain sizeOpt ("len_val"), unit := optChain sizeOpt ("len_unit") } }
    quantity := qty
    uom := uom }

/-- `Array.prototype.map` with the element index, from position `i`
(server.js 152: `.map((li, idx) => ...)`); `itemNow idx` is the
`Date.now()` observation for index `idx`. -/
def buildItemsFrom (itemNow : Nat → Nat) : Nat → List Js → Except String (List LineItem)
  | _, [] => .ok []
  | i, li :: rest => do
    let item ← mapLineItem (itemNow i) i li
    let tail ← buildItemsFrom itemNow (i + 1) rest
    pure (item :: tail)

/-- server.js 152: `(parsedData.line_items || []).map(...)`.  A falsy
`line_items` is replaced by `[]`; a truthy non-array has no `.map` method
and the call throws a `TypeError`. -/
def buildItemsList (itemNow : Nat → Nat) (v : Js) : Except String (List LineItem) :=
  match v with
  | .arr l => buildItemsFrom itemNow 0 l
  | _ => .error ("map is not a function")

/-- server.js 149: the argument of `JSON.parse(response.text || "\x7b\x7d")`. -/
def rawTextOf (text : Option String) : String :=
  match text with
  | some s => if s = "" then ("\x7b\x7d") else s
  | none => "\x7b\x7d"

/-- server.js 152-180: from the parsed extraction data to the RFQ record.
Lines 152, 168 and 170-180 are embedded in source order; every property
access on `parsedData` throws when it is `null`. -/
def buildResult (itemNow : Nat → Nat) (rfqNow : Nat) (req : ParseRequest)
    (parsedData : Js) : Except String Rfq := do
  let rawItems ← parsedData.getProp ("line_items")
  let items ← buildItemsList itemNow (jsOr rawItems (.arr []))
  let rfq_id := rfqIdOf req.rfqId rfqNow
  let projectName ← parsedData.getProp ("project_name")
  let commercialOpt ← parsedData.getProp ("commercial")
  pure {
    rfq_id := rfq_id
    project_name := projectName
    commercial := {
      destination := jsOr (optChain commercialOpt ("destination")) (.str (""))
      incoterm := jsOr (optChain commercialOpt ("incoterm")) (.str (""))
      paymentTerm := jsOr (optChain commercialOpt ("payment_terms")) (.str (""))
      otherRequirements := jsOr (optChain commercialOpt ("other_requirements")) (.str ("")) }
    line_items := items }

/-- server.js 149-180: from the extraction call outcome to the RFQ record.
`callOutcome` is the awaited external call: a thrown error, or a response
whose `.text` is an optional string (lines 100-147; the request body shaped
by lines 52-97 only feeds that external call). -/
def runParse (itemNow : Nat → Nat) (rfqNow : Nat) (req : ParseRequest)
    (callOutcome : Except String (Option String)) : Except String Rfq := do
  let text ← callOutcome
  let parsedData ← jsonParse (rawTextOf text)
  buildResult itemNow rfqNow req parsedData

/-- The in-memory RFQ session store (server.js 24). -/
def RfqStore : Type := String → Option Rfq

/-- The store with no entries (`const rfqStore = {}`). -/
def emptyStore : RfqStore := fun _ => none

/-- `rfqStore[k] = v` (server.js 183). -/
def storePut (store : RfqStore) (k : String) (v : Rfq) : RfqStore :=
  fun k2 => if k2 = k then some v else store k2

/-- server.js 38-191: the whole Parse/Edit request.  On success the result
is stored under its `rfq_id` and returned; any thrown error reaches the
catch handler (lines 187-190), which reports it without touching the
store. -/
def handleParse (itemNow : Nat → Nat) (rfqNow : Nat) (req : ParseRequest)
    (callOutcome : Except String (Option String)) (store : RfqStore) :
    RfqStore × Except String Rfq :=
  match runParse itemNow rfqNow req callOutcome with
  | .ok result => (storePut store result.rfq_id result, .ok result)
  | .error e => (store, .error e)

/-- A key that is present only when its value is not `undefined`. -/
def optField (k : String) (v : Option Js) : List (String × Js) :=
  match v with
  | some x => [(k, x)]
  | none => []

/-- Serialized dimension `{ value, unit }`. -/
def serializeDim (d : Dimension) : Js :=
  .obj (optField ("value") d.value ++ optField ("unit") d.unit)

/-- Serialized line item, keys in the literal order of server.js 153-165. -/
def serializeItem (it : LineItem) : Js :=
  .obj ([(("item_id" : String), it.item_id),
         (("line" : String), .num (it.line : ℚ)),
         (("description" : String), it.description),
         (("material_grade" : String), it.material_grade),
         (("size" : String), .obj
           [(("outer_diameter" : String), serializeDim it.size.outer_diameter),
            (("wall_thickness" : String), serializeDim it.size.wall_thickness),
            (("length" : String), serializeDim it.size.length)])]
        ++ optField ("quantity") it.quantity ++ optField ("uom") it.uom)

/-- Serialized commercial record; its four keys are always present because
the code defaults each value with `|| ""` (server.js 173-178). -/
def serializeCommercial (c : Commercial) : Js :=
  .obj [(("destination" : String), c.destination),
        (("incoterm" : String), c.incoterm),
        (("paymentTerm" : String), c.paymentTerm),
        (("otherRequirements" : String), c.otherRequirements)]

/-- Serialized RFQ record (server.js 170-180 as `res.json` emits it). -/
def serializeRfq (r : Rfq) : Js :=
  .obj ([(("rfq_id" : String), .str r.rfq_id)]
        ++ optField ("project_name") r.project_name
        ++ [(("commercial" : String), serializeCommercial r.commercial),
            (("line_items" : String), .arr (r.line_items.map serializeItem))])

/-! ### Concrete fixtures used by witnesses and counterexamples -/

/-- The record `mapLineItem` yields for a non-`null` element (derived,
closed form of server.js 153-165 used by the lemmas below). -/
def resolvedItem (now idx : Nat) (li : Js) : LineItem :=
  { item_id := jsOr (li.getOwn ("item_id")) (.str (mintedId now idx))
    line := idx + 1
    description := jsOr (li.getOwn ("description")) (.str (""))
    material_grade := jsOr (li.getOwn ("material_grade")) (.str (""))
    size := {
      outer_diameter := { value := optChain (li.getOwn ("size")) ("od_val"),
                          unit := optChain (li.getOwn ("size")) ("od_unit") }
      wall_thickness := { value := optChain (li.getOwn ("size")) ("wt_val"),
                          unit := optChain (li.getOwn ("size")) ("wt_unit") }
      length := { value := optChain (li.getOwn ("size")) ("len_val"),
                  unit := optChain (li.getOwn ("size")) ("len_unit") } }
    quantity := li.getOwn ("quantity")
    uom := li.getOwn ("uom") }

/-- The RFQ record assembled from parsed extraction data and mapped items
(derived, closed form of server.js 168-180 used by the lemmas below). -/
def builtRfq (rfqNow : Nat) (req : ParseRequest) (parsedData : Js)
    (items : List LineItem) : Rfq :=
  { rfq_id := rfqIdOf req.rfqId rfqNow
    project_name := parsedData.getOwn ("project_name")
    commercial := {
      destination := jsOr (optChain (parsedData.getOwn ("commercial")) ("destination")) (.str (""))
      incoterm := jsOr (optChain (parsedData.getOwn ("commercial")) ("incoterm")) (.str (""))
      paymentTerm := jsOr (optChain (parsedData.getOwn ("commercial")) ("payment_terms")) (.str (""))
      otherRequirements := jsOr (optChain (parsedData.getOwn ("commercial")) ("other_requirements")) (.str ("")) }
    line_items := items }

/-- A creation-mode request carrying an explicit `rfqId`. -/
def reqA : ParseRequest :=
  { text := some ("hello"), projectName := none, currentLineItems := none,
    lang := none, rfqId := some ("R1") }

/-- A request whose `currentLineItems` form field is not valid JSON. -/
def reqBad : ParseRequest :=
  { text := some ("hi"), projectName := none, currentLineItems := some ("[broken"),
    lang := none, rfqId := some ("R2") }

/-- An edit-mode request: its `currentLineItems` field carries one prior
item whose id is `P`. -/
def reqEdit : ParseRequest :=
  { text := some ("change it"), projectName := none,
    currentLineItems := some ("[\x7b\"item_id\":\"P\"\x7d]"), lang := none,
    rfqId := some ("R3") }

/-- Two bare extracted items. -/
def twoItemsJson : String := "\x7b\"line_items\":[\x7b\x7d,\x7b\x7d]\x7d"

/-- Extraction output whose only dimension unit is the unnormalized string
`inches`. -/
def inchesJson : String :=
  "\x7b\"line_items\":[\x7b\"size\":\x7b\"od_val\":10,\"od_unit\":\"inches\"\x7d\x7d]\x7d"

/-- The raw item carried by `inchesJson`. -/
def liInches : Js :=
  .obj [(("size" : String), .obj [(("od_val" : String), .num 10),
                                  (("od_unit" : String), .str ("inches"))])]

/-- A raw item with an unrecognized unit and a numeric value. -/
def liFurlong : Js :=
  .obj [(("size" : String), .obj [(("od_val" : String), .num 7),
                                  (("od_unit" : String), .str ("furlong"))])]

/-- Extraction output with one bare item and no commercial record. -/
def bareItemJson : String := "\x7b\"line_items\":[\x7b\x7d]\x7d"

/-- The parsed form of `bareItemJson`. -/
def pBare : Js := .obj [(("line_items" : String), .arr [.obj []])]

/-- The item mapped from the bare extracted item. -/
def itBare : LineItem := resolvedItem 0 0 (.obj [])

/-- The RFQ produced from `bareItemJson`. -/
def rBare : Rfq := builtRfq 0 reqA pBare [itBare]

/-- A raw extracted item whose `item_id` is the string `X`. -/
def liX : Js := .obj [(("item_id" : String), .str ("X"))]

/-- Extraction output carrying `liX`. -/
def cxIdJson : String := "\x7b\"line_items\":[\x7b\"item_id\":\"X\"\x7d]\x7d"

/-- Extraction output carrying two items with the same `item_id`. -/
def dupIdJson : String :=
  "\x7b\"line_items\":[\x7b\"item_id\":\"A\"\x7d,\x7b\"item_id\":\"A\"\x7d]\x7d"

/-- A raw extracted item whose `item_id` is the string `B`. -/
def liB : Js := .obj [(("item_id" : String), .str ("B"))]

/-! ### Decimal rendering facts

`mintedId now idx` embeds `` `L${Date.now()}-${idx}` ``; distinct indices
give distinct identifiers because the decimal digits of a `Nat` contain no
dash and render injectively. -/

/-- The characters `Nat.repr` produces: `"0"` for zero, otherwise the
decimal digits most significant first. -/
def digitsRepr (n : Nat) : List Char :=
  if n = 0 then ['0'] else ((Nat.digits 10 n).map Nat.digitChar).reverse

lemma digitsRepr_step (n : Nat) (h : n / 10 ≠ 0) :
    digitsRepr n = digitsRepr (n / 10) ++ [Nat.digitChar (n % 10)] := by
  have hn : n ≠ 0 := by
    intro h0
    subst h0
    simp at h
  rw [digitsRepr, digitsRepr, if_neg hn, if_neg h,
    Nat.digits_def' (by norm_num : 1 < 10) (Nat.pos_of_ne_zero hn)]
  simp

lemma toDigitsCore_eq (fuel : Nat) :
    ∀ (n : Nat) (acc : List Char), n < fuel →
      Nat.toDigitsCore 10 fuel n acc = digitsRepr n ++ acc := by
  induction fuel with
  | zero => omega
  | succ f ih =>
    intro n acc h
    rw [Nat.toDigitsCore]
    by_cases h0 : n / 10 = 0
    · rw [if_pos h0]
      have hn10 : n < 10 := by omega
      by_cases hz : n = 0
      · subst hz
        rfl
      · have : Nat.digits 10 n = [n] := by
          rw [Nat.digits_def' (by norm_num : 1 < 10) (Nat.pos_of_ne_zero hz), h0,
            Nat.mod_eq_of_lt hn10]
          simp
        rw [digitsRepr, if_neg hz, this]
        simp [Nat.mod_eq_of_lt hn10]
    · rw [if_neg h0]
      have hdiv : n / 10 < f := by
        have h1 : n / 10 < n := Nat.div_lt_self (by omega) (by norm_num)
        omega
      rw [ih (n / 10) _ hdiv, digitsRepr_step n h0]
      simp

lemma repr_data (n : Nat) : (Nat.repr n).data = digitsRepr n := by
  show ((Nat.toDigits 10 n).asString).data = digitsRepr n
  rw [Nat.toDigits, toDigitsCore_eq (n + 1) n [] (by omega)]
  rw [List.append_nil]
  rfl

lemma digitsRepr_isDigit (n : Nat) : ∀ c ∈ digitsRepr n, c.isDigit := by
  intro c hc
  rw [digitsRepr] at hc
  by_cases hz : n = 0
  · rw [if_pos hz] at hc
    simp at hc
    subst hc
    decide
  · rw [if_neg hz] at hc
    simp at hc
    obtain ⟨d, hd, hdc⟩ := hc
    have hd10 : d < 10 := Nat.digits_lt_base (by norm_num) hd
    have : ∀ d2 < 10, (Nat.digitChar d2).isDigit := by decide
    exact hdc ▸ this d hd10

lemma repr_no_dash (n : Nat) : '-' ∉ (Nat.repr n).data := by
  intro h
  have := digitsRepr_isDigit n '-' (repr_data n ▸ h)
  simp at this

lemma digitChar_inj : ∀ a < 10, ∀ b < 10, Nat.digitChar a = Nat.digitChar b → a = b := by
  decide

lemma map_digitChar_inj :
    ∀ (l1 l2 : List Nat), (∀ x ∈ l1, x < 10) → (∀ x ∈ l2, x < 10) →
      l1.map Nat.digitChar = l2.map Nat.digitChar → l1 = l2 := by
  intro l1
  induction l1 with
  | nil =>
    intro l2 _ _ h
    cases l2 with
    | nil => rfl
    | cons b bs => simp at h
  | cons a as ih =>
    intro l2 h1 h2 h
    cases l2 with
    | nil => simp at h
    | cons b bs =>
      simp at h
      obtain ⟨hab, habs⟩ := h
      have ha := h1 a (by simp)
      have hb := h2 b (by simp)
      have := digitChar_inj a ha b hb hab
      subst this
      rw [ih bs (fun x hx => h1 x (by simp [hx])) (fun x hx => h2 x (by simp [hx])) habs]

lemma digitsRepr_inj {m n : Nat} (h : digitsRepr m = digitsRepr n) : m = n := by
  have key : ∀ k : Nat, k ≠ 0 → digitsRepr k ≠ ['0'] := by
    intro k hk hrepr
    rw [digitsRepr, if_neg hk] at hrepr
    have hmap : (Nat.digits 10 k).map Nat.digitChar = ['0'] := by
      have := congrArg List.reverse hrepr
      simpa using this
    have hdig : Nat.digits 10 k = [0] := by
      apply map_digitChar_inj
      · exact fun x hx => Nat.digits_lt_base (by norm_num) hx
      · intro x hx
        simp at hx
        omega
      · simpa using hmap
    have := Nat.ofDigits_digits 10 k
    rw [hdig] at this
    simp [Nat.ofDigits] at this
    omega
  have h0 : digitsRepr 0 = ['0'] := rfl
  by_cases hm : m = 0
  · subst hm
    by_cases hn : n = 0
    · omega
    · exact absurd (h.symm.trans h0) (key n hn)
  · by_cases hn : n = 0
    · subst hn
      exact absurd (h.trans h0) (key m hm)
    · rw [digitsRepr, if_neg hm, digitsRepr, if_neg hn] at h
      have hmap := congrArg List.reverse h
      simp at hmap
      have hdig := map_digitChar_inj _ _
        (fun x hx => Nat.digits_lt_base (by norm_num) hx)
        (fun x hx => Nat.digits_lt_base (by norm_num) hx) hmap
      have h1 := Nat.ofDigits_digits 10 m
      have h2 := Nat.ofDigits_digits 10 n
      rw [hdig] at h1
      rw [h2] at h1
      omega

lemma repr_inj {m n : Nat} (h : Nat.repr m = Nat.repr n) : m = n :=
  digitsRepr_inj (by rw [← repr_data, ← repr_data, h])

lemma splitDash :
    ∀ (a1 : List Char) (b1 a2 b2 : List Char), '-' ∉ a1 → '-' ∉ a2 →
      a1 ++ '-' :: b1 = a2 ++ '-' :: b2 → a1 = a2 ∧ b1 = b2 := by
  intro a1
  induction a1 with
  | nil =>
    intro b1 a2 b2 _ h2 h
    cases a2 with
    | nil => simpa using h
    | cons x xs =>
      simp at h
      exact absurd (show '-' ∈ x :: xs by rw [← h.1]; exact List.mem_cons_self _ _) h2
  | cons x xs ih =>
    intro b1 a2 b2 h1 h2 h
    cases a2 with
    | nil =>
      simp at h
      exact absurd (show '-' ∈ x :: xs by rw [h.1]; exact List.mem_cons_self _ _) h1
    | cons y ys =>
      simp at h
      obtain ⟨hxy, hrest⟩ := h
      have := ih b1 ys b2 (fun hc => h1 (by simp [hc])) (fun hc => h2 (by simp [hc])) hrest
      exact ⟨by simp [hxy, this.1], this.2⟩

lemma mintedId_data (a b : Nat) :
    (mintedId a b).data = ('L' :: (Nat.repr a).data) ++ '-' :: (Nat.repr b).data := by
  have hL : ("L" : String).data = ['L'] := rfl
  have hD : ("-" : String).data = ['-'] := rfl
  rw [mintedId, String.data_append, String.data_append, String.data_append, hL, hD]
  simp

lemma mintedId_ne {t u i j : Nat} (hij : i ≠ j) : mintedId t i ≠ mintedId u j := by
  intro h
  have hsplit : ('L' :: (Nat.repr t).data) ++ '-' :: (Nat.repr i).data
      = ('L' :: (Nat.repr u).data) ++ '-' :: (Nat.repr j).data := by
    rw [← mintedId_data, ← mintedId_data, h]
  have hnd1 : '-' ∉ 'L' :: (Nat.repr t).data := by
    intro hc
    simp at hc
    exact repr_no_dash t hc
  have hnd2 : '-' ∉ 'L' :: (Nat.repr u).data := by
    intro hc
    simp at hc
    exact repr_no_dash u hc
  obtain ⟨h1s, h2s⟩ := splitDash _ _ _ _ hnd1 hnd2 hsplit
  exact hij (repr_inj (String.ext h2s))

/-! ### Characterizing the items mapping -/

lemma mapLineItem_null (now idx : Nat) :
    mapLineItem now idx Js.null = .error ("Cannot read properties of null") := rfl

lemma mapLineItem_eq (now idx : Nat) (li : Js) (hn : li ≠ Js.null) :
    mapLineItem now idx li = .ok (resolvedItem now idx li) := by
  cases li <;> first | rfl | exact absurd rfl hn

lemma mapLineItem_ok_elim {now idx : Nat} {li : Js} {it : LineItem}
    (h : mapLineItem now idx li = .ok it) :
    li ≠ Js.null ∧ it = resolvedItem now idx li := by
  by_cases hn : li = Js.null
  · subst hn
    rw [mapLineItem_null] at h
    exact absurd h (by simp)
  · rw [mapLineItem_eq now idx li hn] at h
    exact ⟨hn, ((Except.ok.injEq _ _).mp h).symm⟩

lemma buildItemsFrom_cons (itemNow : Nat → Nat) (i : Nat) (li : Js) (rest : List Js)
    {items : List LineItem} (h : buildItemsFrom itemNow i (li :: rest) = .ok items) :
    ∃ item tail, mapLineItem (itemNow i) i li = .ok item ∧
      buildItemsFrom itemNow (i + 1) rest = .ok tail ∧ items = item :: tail := by
  cases h1 : mapLineItem (itemNow i) i li with
  | error e =>
    rw [buildItemsFrom, h1] at h
    exact Except.noConfusion h
  | ok item =>
    cases h2 : buildItemsFrom itemNow (i + 1) rest with
    | error e =>
      rw [buildItemsFrom, h1, h2] at h
      exact Except.noConfusion h
    | ok tail =>
      rw [buildItemsFrom, h1, h2] at h
      exact ⟨item, tail, rfl, rfl, ((Except.ok.injEq _ _).mp h).symm⟩

lemma buildItemsFrom_ok_length {itemNow : Nat → Nat} :
    ∀ {i : Nat} {xs : List Js} {items : List LineItem},
      buildItemsFrom itemNow i xs = .ok items → items.length = xs.length := by
  intro i xs
  induction xs generalizing i with
  | nil =>
    intro items h
    simp [buildItemsFrom] at h
    rw [h]
    rfl
  | cons li rest ih =>
    intro items h
    obtain ⟨item, tail, _, h2, hit⟩ := buildItemsFrom_cons itemNow i li rest h
    subst hit
    simp [ih h2]

lemma buildItemsFrom_ok_get {itemNow : Nat → Nat} :
    ∀ {i : Nat} {xs : List Js} {items : List LineItem},
      buildItemsFrom itemNow i xs = .ok items →
      ∀ (k : Nat) (hk : k < xs.length) (hk2 : k < items.length),
        mapLineItem (itemNow (i + k)) (i + k) (xs.get ⟨k, hk⟩) = .ok (items.get ⟨k, hk2⟩) := by
  intro i xs
  induction xs generalizing i with
  | nil =>
    intro items _ k hk
    simp at hk
  | cons li rest ih =>
    intro items h k hk hk2
    obtain ⟨item, tail, h1, h2, hit⟩ := buildItemsFrom_cons itemNow i li rest h
    subst hit
    cases k with
    | zero => simpa using h1
    | succ k2 =>
      have hr : i + (k2 + 1) = (i + 1) + k2 := by omega
      rw [hr]
      have hk3 : k2 < rest.length := by simpa using hk
      have hk4 : k2 < tail.length := by simpa using hk2
      simpa using ih h2 k2 hk3 hk4

lemma buildItemsFrom_ok_line {itemNow : Nat → Nat} :
    ∀ {i : Nat} {xs : List Js} {items : List LineItem},
      buildItemsFrom itemNow i xs = .ok items →
      items.map LineItem.line = List.range' (i + 1) xs.length := by
  intro i xs
  induction xs generalizing i with
  | nil =>
    intro items h
    simp [buildItemsFrom] at h
    rw [h]
    rfl
  | cons li rest ih =>
    intro items h
    obtain ⟨item, tail, h1, h2, hit⟩ := buildItemsFrom_cons itemNow i li rest h
    subst hit
    have hline : item.line = i + 1 := by
      rw [(mapLineItem_ok_elim h1).2]
      rfl
    simp [hline, ih h2, List.range']

/-! ### Characterizing a successful Parse/Edit request -/

lemma runParse_errCall (itemNow : Nat → Nat) (rfqNow : Nat) (req : ParseRequest) (e : String) :
    runParse itemNow rfqNow req (.error e) = .error e := rfl

lemma runParse_okCall (itemNow : Nat → Nat) (rfqNow : Nat) (req : ParseRequest)
    (t : Option String) :
    runParse itemNow rfqNow req (.ok t)
      = (jsonParse (rawTextOf t)).bind (buildResult itemNow rfqNow req) := rfl

lemma buildResult_null (itemNow : Nat → Nat) (rfqNow : Nat) (req : ParseRequest) :
    buildResult itemNow rfqNow req Js.null = .error ("Cannot read properties of null") := rfl

lemma buildResult_eq (itemNow : Nat → Nat) (rfqNow : Nat) (req : ParseRequest)
    (p : Js) (hn : p ≠ Js.null) :
    buildResult itemNow rfqNow req p
      = (buildItemsList itemNow (jsOr (p.getOwn ("line_items")) (.arr []))).bind
          (fun items => .ok (builtRfq rfqNow req p items)) := by
  cases p <;> first | rfl | exact absurd rfl hn

lemma runParse_ok_elim {itemNow : Nat → Nat} {rfqNow : Nat} {req : ParseRequest}
    {co : Except String (Option String)} {r : Rfq}
    (h : runParse itemNow rfqNow req co = .ok r) :
    ∃ t p items, co = .ok t ∧ jsonParse (rawTextOf t) = .ok p ∧
      buildItemsList itemNow (jsOr (p.getOwn ("line_items")) (.arr [])) = .ok items ∧
      r = builtRfq rfqNow req p items := by
  cases co with
  | error e =>
    rw [runParse_errCall] at h
    exact Except.noConfusion h
  | ok t =>
    rw [runParse_okCall] at h
    cases hp : jsonParse (rawTextOf t) with
    | error e =>
      rw [hp] at h
      exact Except.noConfusion h
    | ok p =>
      rw [hp] at h
      by_cases hn : p = Js.null
      · subst hn
        exact Except.noConfusion h
      · have h2 : buildResult itemNow rfqNow req p = .ok r := h
        rw [buildResult_eq itemNow rfqNow req p hn] at h2
        cases hb : buildItemsList itemNow (jsOr (p.getOwn ("line_items")) (.arr [])) with
        | error e =>
          rw [hb] at h2
          exact Except.noConfusion h2
        | ok items =>
          rw [hb] at h2
          exact ⟨t, p, items, rfl, hp, hb, ((Except.ok.injEq _ _).mp h2).symm⟩

lemma runParse_emptyText (itemNow : Nat → Nat) (rfqNow : Nat) (req : ParseRequest) :
    runParse itemNow rfqNow req (.ok (some (""))) = .ok (builtRfq rfqNow req (.obj []) []) := rfl

lemma runParse_noneText (itemNow : Nat → Nat) (rfqNow : Nat) (req : ParseRequest) :
    runParse itemNow rfqNow req (.ok none) = .ok (builtRfq rfqNow req (.obj []) []) := rfl

/-- `jsOr` through the truthy view. -/
lemma jsOr_eq_truthyOpt (x : Option Js) (d : Js) : jsOr x d = (truthyOpt x).getD d := by
  cases x with
  | none => rfl
  | some v =>
    by_cases hv : v.truthy
    · simp [jsOr, truthyOpt, hv]
    · simp [jsOr, truthyOpt, hv]

/-- Claim C7: for every reconciliation output of length N, the `line`
values of the items, read in sequence order, are exactly 1, 2, ..., N with
no duplicates or gaps, regardless of any `line` values in prior items or
extraction output.  (`line` is assigned as `idx + 1` over the extraction
output; prior items are not even an input of the mapping.) -/
theorem claim7_line_numbering (itemNow : Nat → Nat) (rfqNow : Nat) (req : ParseRequest)
    (co : Except String (Option String)) (r : Rfq)
    (h : runParse itemNow rfqNow req co = .ok r) :
    r.line_items.map LineItem.line = List.range' 1 r.line_items.length := by
  obtain ⟨t, p, items, -, -, hb, hr⟩ := runParse_ok_elim h
  subst hr
  show items.map LineItem.line = List.range' 1 items.length
  cases hv : jsOr (p.getOwn ("line_items")) (.arr []) with
  | arr l =>
    rw [hv] at hb
    have hb2 : buildItemsFrom itemNow 0 l = .ok items := hb
    have hline := buildItemsFrom_ok_line hb2
    have hlen := buildItemsFrom_ok_length hb2
    rw [hline, hlen]
  | null => rw [hv] at hb; exact Except.noConfusion hb
  | bool b => rw [hv] at hb; exact Except.noConfusion hb
  | num q => rw [hv] at hb; exact Except.noConfusion hb
  | str s => rw [hv] at hb; exact Except.noConfusion hb
  | obj fields => rw [hv] at hb; exact Except.noConfusion hb

/-- Witness for C7 at a concrete two-item extraction output. -/
theorem claim7_witness :
    (runParse (fun _ => 0) 0 reqA (.ok (some twoItemsJson))).map
        (fun r => r.line_items.map LineItem.line) = .ok [1, 2] := by
  have h : runParse (fun _ => 0) 0 reqA (.ok (some twoItemsJson))
      = .ok (builtRfq 0 reqA (.obj [(("line_items" : String), .arr [.obj [], .obj []])])
          [resolvedItem 0 0 (.obj []), resolvedItem 0 1 (.obj [])]) := rfl
  have h2 := claim7_line_numbering (fun _ => 0) 0 reqA (.ok (some twoItemsJson)) _ h
  rw [h]
  show Except.ok ((builtRfq 0 reqA (.obj [(("line_items" : String), .arr [.obj [], .obj []])])
      [resolvedItem 0 0 (.obj []), resolvedItem 0 1 (.obj [])]).line_items.map LineItem.line)
    = .ok [1, 2]
  rw [h2]
  rfl

/-- Claim C8: a Parse/Edit request that fails at any point leaves the RFQ
session store exactly as it was; a successful one replaces the entry for
its `rfq_id` wholesale and touches nothing else. -/
theorem claim8_store_atomicity (itemNow : Nat → Nat) (rfqNow : Nat) (req : ParseRequest)
    (co : Except String (Option String)) (store : RfqStore) :
    (∀ e, (handleParse itemNow rfqNow req co store).2 = .error e →
      (handleParse itemNow rfqNow req co store).1 = store) ∧
    (∀ r, (handleParse itemNow rfqNow req co store).2 = .ok r →
      ∀ k, (handleParse itemNow rfqNow req co store).1 k
          = if k = r.rfq_id then some r else store k) := by
  cases h : runParse itemNow rfqNow req co with
  | error e =>
    constructor
    · intro e2 _
      simp [handleParse, h]
    · intro r hr
      rw [handleParse, h] at hr
      exact Except.noConfusion hr
  | ok result =>
    constructor
    · intro e2 hr
      rw [handleParse, h] at hr
      exact Except.noConfusion hr
    · intro r hr k
      rw [handleParse, h] at hr
      have : result = r := (Except.ok.injEq _ _).mp hr
      subst this
      simp [handleParse, h, storePut]

/-- Witness for C8: a failing request (the external call throws) leaves the
store untouched. -/
theorem claim8_witness :
    (handleParse (fun _ => 0) 0 reqA (.error ("boom")) emptyStore).1 = emptyStore :=
  (claim8_store_atomicity (fun _ => 0) 0 reqA (.error ("boom")) emptyStore).1 ("boom") rfl

/-- Claim C1 counterexample: the extraction output is absent (empty
response text), yet the request does NOT fail with any error — it succeeds,
stores and returns an RFQ with an empty line-item list.  (`JSON.parse(
response.text || "\x7b\x7d")` silently substitutes an empty record and
`parsedData.line_items || []` an empty list; no `MalformedExtractionOutput`
error kind exists anywhere in the code.) -/
theorem claim1_counterexample :
    (handleParse (fun _ => 0) 0 reqA (.ok (some (""))) emptyStore).2
        = .ok (builtRfq 0 reqA (.obj []) []) ∧
    (builtRfq 0 reqA (.obj []) []).line_items = [] ∧
    (handleParse (fun _ => 0) 0 reqA (.ok (some (""))) emptyStore).1 ("R1")
        = some (builtRfq 0 reqA (.obj []) []) :=
  ⟨rfl, rfl, rfl⟩

/-- Claim C1, amended: the pipeline never fails because the extraction
output is absent or empty, and no `MalformedExtractionOutput` error kind
exists.  It fails, reporting the thrown error to the caller with the store
untouched, when the response text is present, non-empty and not valid JSON
(the parse error), when the text parses to JSON `null` (reading
`line_items` on it throws a `TypeError`), and when it parses to a value
whose `line_items` is truthy but not an array (`.map` is not a function).
It silently succeeds — storing and returning an RFQ whose line-item list
is empty — when the response text is missing or empty, and when it parses
to a non-`null` value without a truthy `line_items` field. -/
theorem claim1_failure_semantics :
    (∀ (itemNow : Nat → Nat) (rfqNow : Nat) (req : ParseRequest) (store : RfqStore)
       (s e : String), s ≠ "" → jsonParse s = .error e →
       handleParse itemNow rfqNow req (.ok (some s)) store = (store, .error e)) ∧
    (∀ (itemNow : Nat → Nat) (rfqNow : Nat) (req : ParseRequest) (store : RfqStore)
       (s : String), jsonParse s = .ok Js.null →
       handleParse itemNow rfqNow req (.ok (some s)) store
         = (store, .error ("Cannot read properties of null"))) ∧
    (∀ (itemNow : Nat → Nat) (rfqNow : Nat) (req : ParseRequest) (store : RfqStore)
       (s : String) (p v : Js), jsonParse s = .ok p → p ≠ Js.null →
       truthyOpt (p.getOwn ("line_items")) = some v → (∀ l, v ≠ Js.arr l) →
       handleParse itemNow rfqNow req (.ok (some s)) store
         = (store, .error ("map is not a function"))) ∧
    (∀ (itemNow : Nat → Nat) (rfqNow : Nat) (req : ParseRequest) (store : RfqStore)
       (t : Option String), t = none ∨ t = some ("") →
       handleParse itemNow rfqNow req (.ok t) store
         = (storePut store (rfqIdOf req.rfqId rfqNow) (builtRfq rfqNow req (.obj []) []),
            .ok (builtRfq rfqNow req (.obj []) [])) ∧
       (builtRfq rfqNow req (.obj []) []).line_items = []) ∧
    (∀ (itemNow : Nat → Nat) (rfqNow : Nat) (req : ParseRequest) (store : RfqStore)
       (s : String) (p : Js), jsonParse s = .ok p → p ≠ Js.null →
       truthyOpt (p.getOwn ("line_items")) = none →
       handleParse itemNow rfqNow req (.ok (some s)) store
         = (storePut store (rfqIdOf req.rfqId rfqNow) (builtRfq rfqNow req p []),
            .ok (builtRfq rfqNow req p [])) ∧
       (builtRfq rfqNow req p []).line_items = []) := by
  have hne : ∀ (s : String) (p : Js), jsonParse s = .ok p → s ≠ "" := by
    intro s p hp h
    subst h
    exact Except.noConfusion hp
  have hrunbr : ∀ (itemNow : Nat → Nat) (rfqNow : Nat) (req : ParseRequest)
      (s : String) (p : Js), jsonParse s = .ok p → p ≠ Js.null →
      runParse itemNow rfqNow req (.ok (some s))
        = (buildItemsList itemNow (jsOr (p.getOwn ("line_items")) (.arr []))).bind
            (fun items => .ok (builtRfq rfqNow req p items)) := by
    intro itemNow rfqNow req s p hp hn
    rw [runParse_okCall]
    have hraw : rawTextOf (some s) = s := by simp [rawTextOf, hne s p hp]
    rw [hraw, hp]
    show buildResult itemNow rfqNow req p = _
    exact buildResult_eq itemNow rfqNow req p hn
  refine ⟨?_, ?_, ?_, ?_, ?_⟩
  · intro itemNow rfqNow req store s e hs hp
    have hr : runParse itemNow rfqNow req (.ok (some s)) = .error e := by
      rw [runParse_okCall]
      have hraw : rawTextOf (some s) = s := by simp [rawTextOf, hs]
      rw [hraw, hp]
      rfl
    rw [handleParse, hr]
  · intro itemNow rfqNow req store s hp
    have hr : runParse itemNow rfqNow req (.ok (some s))
        = .error ("Cannot read properties of null") := by
      rw [runParse_okCall]
      have hraw : rawTextOf (some s) = s := by simp [rawTextOf, hne s Js.null hp]
      rw [hraw, hp]
      rfl
    rw [handleParse, hr]
  · intro itemNow rfqNow req store s p v hp hn hv hna
    have hjs : jsOr (p.getOwn ("line_items")) (.arr []) = v := by
      rw [jsOr_eq_truthyOpt, hv]
      rfl
    have hbil : buildItemsList itemNow v = .error ("map is not a function") := by
      cases v <;> first | rfl | exact absurd rfl (hna _)
    have hr : runParse itemNow rfqNow req (.ok (some s))
        = .error ("map is not a function") := by
      rw [hrunbr itemNow rfqNow req s p hp hn, hjs, hbil]
      rfl
    rw [handleParse, hr]
  · intro itemNow rfqNow req store t ht
    have hr : runParse itemNow rfqNow req (.ok t)
        = .ok (builtRfq rfqNow req (.obj []) []) := by
      rcases ht with rfl | rfl
      · exact runParse_noneText itemNow rfqNow req
      · exact runParse_emptyText itemNow rfqNow req
    constructor
    · rw [handleParse, hr]
      rfl
    · rfl
  · intro itemNow rfqNow req store s p hp hn hno
    have hjs : jsOr (p.getOwn ("line_items")) (.arr []) = .arr [] := by
      rw [jsOr_eq_truthyOpt, hno]
      rfl
    have hr : runParse itemNow rfqNow req (.ok (some s))
        = .ok (builtRfq rfqNow req p []) := by
      rw [hrunbr itemNow rfqNow req s p hp hn, hjs]
      rfl
    constructor
    · rw [handleParse, hr]
      rfl
    · rfl

/-- Witness for the amended C1 on all five branches: invalid JSON text,
JSON `null` text and a truthy non-array `line_items` fail with the thrown
error and an untouched store; a missing response text and a record without
`line_items` silently succeed with an empty line-item list. -/
theorem claim1_witness :
    handleParse (fun _ => 0) 0 reqA (.ok (some ("not json"))) emptyStore
        = (emptyStore, .error ("Unexpected token in JSON")) ∧
    handleParse (fun _ => 0) 0 reqA (.ok (some ("null"))) emptyStore
        = (emptyStore, .error ("Cannot read properties of null")) ∧
    handleParse (fun _ => 0) 0 reqA (.ok (some ("\x7b\"line_items\":true\x7d"))) emptyStore
        = (emptyStore, .error ("map is not a function")) ∧
    (handleParse (fun _ => 0) 0 reqA (.ok none) emptyStore).2
        = .ok (builtRfq 0 reqA (.obj []) []) ∧
    (handleParse (fun _ => 0) 0 reqA (.ok (some ("\x7b\"a\":\"b\"\x7d"))) emptyStore).2
        = .ok (builtRfq 0 reqA (.obj [(("a" : String), .str ("b"))]) []) :=
  ⟨claim1_failure_semantics.1 (fun _ => 0) 0 reqA emptyStore ("not json")
      ("Unexpected token in JSON") (by decide) rfl,
   claim1_failure_semantics.2.1 (fun _ => 0) 0 reqA emptyStore ("null") rfl,
   claim1_failure_semantics.2.2.1 (fun _ => 0) 0 reqA emptyStore
      ("\x7b\"line_items\":true\x7d") (.obj [(("line_items" : String), .bool true)])
      (.bool true) rfl (fun h => Js.noConfusion h) rfl (fun l h => Js.noConfusion h),
   by rw [(claim1_failure_semantics.2.2.2.1 (fun _ => 0) 0 reqA emptyStore none
        (Or.inl rfl)).1],
   by rw [(claim1_failure_semantics.2.2.2.2 (fun _ => 0) 0 reqA emptyStore
        ("\x7b\"a\":\"b\"\x7d") (.obj [(("a" : String), .str ("b"))]) rfl
        (fun h => Js.noConfusion h) rfl).1]⟩

/-- Claim C10: a supplied but unparseable `currentLineItems` payload never
fails the request: the `JSON.parse` exception is swallowed (server.js 46),
the prior-item list stays `[]`, the request proceeds in creation mode
(`isEditMode = false`), behaves exactly like the same request without the
field, and a successful pipeline still stores its fresh RFQ. -/
theorem claim10_bad_current_items (req : ParseRequest) (s e : String)
    (hcl : req.currentLineItems = some s) (hp : jsonParse s = .error e) :
    currentItemsOf req = .arr [] ∧
    isEditMode req = false ∧
    (∀ (itemNow : Nat → Nat) (rfqNow : Nat) (co : Except String (Option String))
       (store : RfqStore),
       handleParse itemNow rfqNow req co store
         = handleParse itemNow rfqNow { req with currentLineItems := none } co store) ∧
    (∀ (itemNow : Nat → Nat) (rfqNow : Nat) (co : Except String (Option String))
       (store : RfqStore) (r : Rfq), runParse itemNow rfqNow req co = .ok r →
       (handleParse itemNow rfqNow req co store).1 r.rfq_id = some r) := by
  have hcur : currentItemsOf req = .arr [] := by
    rw [currentItemsOf, hcl]
    by_cases hse : s = ""
    · simp [hse]
    · simp [hse, hp]
  refine ⟨hcur, ?_, ?_, ?_⟩
  · rw [isEditMode, hcur]
    rfl
  · intro itemNow rfqNow co store
    rfl
  · intro itemNow rfqNow co store r h
    simp [handleParse, h, storePut]

/-- Witness for C10 at a concrete broken payload. -/
theorem claim10_witness :
    currentItemsOf reqBad = .arr [] ∧
    isEditMode reqBad = false ∧
    (handleParse (fun _ => 0) 0 reqBad (.ok none) emptyStore).1 ("R2")
        = some (builtRfq 0 reqBad (.obj []) []) := by
  have h := claim10_bad_current_items reqBad ("[broken") ("Unexpected token in JSON") rfl rfl
  refine ⟨h.1, h.2.1, ?_⟩
  exact h.2.2.2 (fun _ => 0) 0 (.ok none) emptyStore (builtRfq 0 reqBad (.obj []) [])
    (runParse_noneText _ _ _)

/-- Claim C2 counterexample: the extraction output carries the unit string
`inches`, which is neither in the closed set `mm, m, in, ft, pcs` nor
mapped into it nor left unset — the produced `Dimension` keeps `inches`
verbatim.  There is no unit normalizer in the code; the closed set appears
only in the prompt sent to the external extraction service. -/
theorem claim2_counterexample :
    (runParse (fun _ => 7) 0 reqA (.ok (some inchesJson))).map
        (fun r => r.line_items.map (fun it => it.size.outer_diameter.unit))
      = .ok [some (.str ("inches"))] ∧
    ("inches" ∉ (["mm", "m", "in", "ft", "pcs"] : List String)) :=
  ⟨rfl, by decide⟩

/-- Claim C2, amended: each produced `Dimension` carries exactly the raw
unit value of the extraction output (or none when it is absent); the code
performs no mapping into `mm, m, in, ft, pcs` — normalization to that set
is only requested of the external extraction service via its prompt, not
enforced. -/
theorem claim2_unit_passthrough (now idx : Nat) (li : Js) (it : LineItem)
    (h : mapLineItem now idx li = .ok it) :
    it.size.outer_diameter.unit = optChain (li.getOwn ("size")) ("od_unit") ∧
    it.size.wall_thickness.unit = optChain (li.getOwn ("size")) ("wt_unit") ∧
    it.size.length.unit = optChain (li.getOwn ("size")) ("len_unit") := by
  rw [(mapLineItem_ok_elim h).2]
  exact ⟨rfl, rfl, rfl⟩

/-- Witness for the amended C2 at the `inches` item. -/
theorem claim2_witness :
    (resolvedItem 7 0 liInches).size.outer_diameter.unit
      = optChain (liInches.getOwn ("size")) ("od_unit") ∧
    optChain (liInches.getOwn ("size")) ("od_unit") = some (.str ("inches")) :=
  ⟨(claim2_unit_passthrough 7 0 liInches _ rfl).1, rfl⟩

/-- Claim C3 counterexample: for the unrecognized unit string `furlong`
(not in the closed set, not a known alias) the produced `Dimension` does
preserve the numeric value 7, but its unit is NOT left unset — the raw
string `furlong` is kept.  (No alias table such as `inches → in` exists in
the code either.) -/
theorem claim3_counterexample :
    mapLineItem 0 0 liFurlong = .ok (resolvedItem 0 0 liFurlong) ∧
    (resolvedItem 0 0 liFurlong).size.outer_diameter.value = some (.num 7) ∧
    (resolvedItem 0 0 liFurlong).size.outer_diameter.unit = some (.str ("furlong")) ∧
    some (Js.str ("furlong")) ≠ (none : Option Js) :=
  ⟨rfl, rfl, rfl, by simp⟩

/-- Claim C3, amended: for every raw extracted dimension the produced
`Dimension` preserves the numeric value, and its unit is exactly the raw
unit of the extraction output — never unset for an unrecognized string,
and never a substituted default or guess. -/
theorem claim3_dimension_passthrough (now idx : Nat) (li : Js) (it : LineItem)
    (h : mapLineItem now idx li = .ok it) :
    it.size.outer_diameter.value = optChain (li.getOwn ("size")) ("od_val") ∧
    it.size.wall_thickness.value = optChain (li.getOwn ("size")) ("wt_val") ∧
    it.size.length.value = optChain (li.getOwn ("size")) ("len_val") ∧
    it.size.outer_diameter.unit = optChain (li.getOwn ("size")) ("od_unit") ∧
    it.size.wall_thickness.unit = optChain (li.getOwn ("size")) ("wt_unit") ∧
    it.size.length.unit = optChain (li.getOwn ("size")) ("len_unit") := by
  rw [(mapLineItem_ok_elim h).2]
  exact ⟨rfl, rfl, rfl, rfl, rfl, rfl⟩

/-- Witness for the amended C3 at the `furlong` item. -/
theorem claim3_witness :
    (resolvedItem 0 0 liFurlong).size.outer_diameter.value
      = optChain (liFurlong.getOwn ("size")) ("od_val") ∧
    optChain (liFurlong.getOwn ("size")) ("od_val") = some (.num 7) :=
  ⟨(claim3_dimension_passthrough 0 0 liFurlong _ rfl).1, rfl⟩

/-- Claim C4 counterexample: in the record serialized for a successful
request, the commercial keys are `paymentTerm` and `otherRequirements` —
`payment_term` and `other_requirements` are absent — and the optional
line-item keys `quantity` and `uom` are dropped entirely (their values are
`undefined`, and `JSON.stringify` omits such keys) instead of being present
with an empty value. -/
theorem claim4_counterexample :
    runParse (fun _ => 0) 0 reqA (.ok (some bareItemJson)) = .ok rBare ∧
    (serializeRfq rBare).getOwn ("commercial") = some (serializeCommercial rBare.commercial) ∧
    (serializeCommercial rBare.commercial).getOwn ("payment_term") = none ∧
    (serializeCommercial rBare.commercial).getOwn ("other_requirements") = none ∧
    (serializeCommercial rBare.commercial).getOwn ("paymentTerm") = some (.str ("")) ∧
    (serializeRfq rBare).getOwn ("line_items") = some (.arr [serializeItem itBare]) ∧
    (serializeItem itBare).getOwn ("quantity") = none ∧
    (serializeItem itBare).getOwn ("uom") = none :=
  ⟨rfl, rfl, rfl, rfl, rfl, rfl, rfl, rfl⟩

/-- Claim C4, amended: for every RFQ produced and serialized by a
successful request, the serialized commercial record always carries
exactly the keys `destination`, `incoterm`, `paymentTerm` and
`otherRequirements` (each defaulted to the empty string when the
extraction output lacks it), and every serialized line item always
carries `item_id`, `line`, `description`, `material_grade` and `size`,
while its `quantity` and `uom` keys are present exactly when the
extraction output supplied those values (they are omitted otherwise, not
emptied). -/
theorem claim4_serialized_shape (itemNow : Nat → Nat) (rfqNow : Nat) (req : ParseRequest)
    (co : Except String (Option String)) (r : Rfq)
    (_h : runParse itemNow rfqNow req co = .ok r) :
    ((serializeRfq r).getOwn ("commercial") = some (serializeCommercial r.commercial)) ∧
    ((serializeCommercial r.commercial).getOwn ("destination") = some r.commercial.destination) ∧
    ((serializeCommercial r.commercial).getOwn ("incoterm") = some r.commercial.incoterm) ∧
    ((serializeCommercial r.commercial).getOwn ("paymentTerm") = some r.commercial.paymentTerm) ∧
    ((serializeCommercial r.commercial).getOwn ("otherRequirements")
        = some r.commercial.otherRequirements) ∧
    ((serializeCommercial r.commercial).getOwn ("payment_term") = none) ∧
    ((serializeCommercial r.commercial).getOwn ("other_requirements") = none) ∧
    (∀ it ∈ r.line_items,
      (serializeItem it).getOwn ("item_id") = some it.item_id ∧
      (serializeItem it).getOwn ("description") = some it.description ∧
      (serializeItem it).getOwn ("material_grade") = some it.material_grade ∧
      (serializeItem it).getOwn ("quantity") = it.quantity ∧
      (serializeItem it).getOwn ("uom") = it.uom) := by
  refine ⟨?_, rfl, rfl, rfl, rfl, rfl, rfl, ?_⟩
  · cases hpn : r.project_name <;>
      simp [serializeRfq, optField, Js.getOwn, lookupLast, hpn]
  · intro it _
    refine ⟨?_, ?_, ?_, ?_, ?_⟩ <;>
      cases hq : it.quantity <;> cases hu : it.uom <;>
        simp [serializeItem, optField, Js.getOwn, lookupLast, hq, hu]

/-- Witness for the amended C4 at the bare-item RFQ. -/
theorem claim4_witness :
    (serializeCommercial rBare.commercial).getOwn ("paymentTerm")
        = some rBare.commercial.paymentTerm ∧
    (serializeItem itBare).getOwn ("quantity") = itBare.quantity := by
  have h := claim4_serialized_shape (fun _ => 0) 0 reqA (.ok (some bareItemJson)) rBare rfl
  refine ⟨h.2.2.2.1, ?_⟩
  have h8 := h.2.2.2.2.2.2.2 itBare (by simp [rBare, builtRfq])
  exact h8.2.2.2.1

/-- Claim C5 counterexample: a reconciliation pass WITH prior items — the
request is in edit mode and its prior list holds one item whose id is `P`.
The extraction output carries `item_id` `X`, which matches no prior item,
yet the code keeps `X` verbatim instead of assigning a newly minted
identifier: `li.item_id || minted` (server.js 154) keeps any truthy id and
never consults the prior list. -/
theorem claim5_counterexample :
    currentItemsOf reqEdit = .arr [.obj [(("item_id" : String), .str ("P"))]] ∧
    isEditMode reqEdit = true ∧
    ("X" : String) ≠ "P" ∧
    (runParse (fun _ => 9) 0 reqEdit (.ok (some cxIdJson))).map
        (fun r => r.line_items.map LineItem.item_id) = .ok [.str ("X")] ∧
    Js.str ("X") ≠ Js.str (mintedId 9 0) := by
  refine ⟨rfl, rfl, by decide, rfl, ?_⟩
  simp only [ne_eq, Js.str.injEq]
  decide

/-- Claim C5, amended: an extracted item with a truthy `item_id` keeps it
verbatim whether or not it matches any prior item (prior items are never
consulted); an extracted item with an absent or falsy `item_id` is
assigned the minted identifier `L{timestamp}-{index}`. -/
theorem claim5_identity_resolution (now idx : Nat) (li : Js) (it : LineItem)
    (h : mapLineItem now idx li = .ok it) :
    (∀ v, truthyOpt (li.getOwn ("item_id")) = some v → it.item_id = v) ∧
    (truthyOpt (li.getOwn ("item_id")) = none → it.item_id = .str (mintedId now idx)) := by
  rw [(mapLineItem_ok_elim h).2]
  constructor
  · intro v hv
    show jsOr (li.getOwn ("item_id")) (.str (mintedId now idx)) = v
    rw [jsOr_eq_truthyOpt, hv]
    rfl
  · intro hv
    show jsOr (li.getOwn ("item_id")) (.str (mintedId now idx)) = .str (mintedId now idx)
    rw [jsOr_eq_truthyOpt, hv]
    rfl

/-- Witness for the amended C5: a truthy id is kept, a missing one is
minted. -/
theorem claim5_witness :
    (resolvedItem 9 0 liX).item_id = .str ("X") ∧
    (resolvedItem 3 1 (Js.obj [])).item_id = .str (mintedId 3 1) :=
  ⟨(claim5_identity_resolution 9 0 liX _ rfl).1 (.str ("X")) rfl,
   (claim5_identity_resolution 3 1 (Js.obj []) _ rfl).2 rfl⟩

/-- Claim C6 counterexample: an extraction output with duplicate `item_id`
strings flows through reconciliation unchanged, so the produced list
carries the duplicate — `item_id` values are not pairwise distinct. -/
theorem claim6_counterexample :
    (runParse (fun _ => 0) 0 reqA (.ok (some dupIdJson))).map
        (fun r => r.line_items.map LineItem.item_id) = .ok [.str ("A"), .str ("A")] ∧
    ¬ (([Js.str ("A"), Js.str ("A")] : List Js).Pairwise (· ≠ ·)) := by
  refine ⟨rfl, ?_⟩
  simp

/-- Claim C6, amended: the produced `item_id` values are pairwise distinct
provided the truthy `item_id` values of the extraction output are pairwise
distinct and none of them collides with a minted identifier
`L{timestamp}-{index}` of the same pass; the minted identifiers themselves
are always pairwise distinct. -/
theorem claim6_distinct_ids (itemNow : Nat → Nat) (xs : List Js) (items : List LineItem)
    (hb : buildItemsFrom itemNow 0 xs = .ok items)
    (H1 : ∀ (j k : Nat) (hj : j < xs.length) (hk : k < xs.length) (v w : Js),
      j ≠ k → truthyOpt ((xs.get ⟨j, hj⟩).getOwn ("item_id")) = some v →
      truthyOpt ((xs.get ⟨k, hk⟩).getOwn ("item_id")) = some w → v ≠ w)
    (H2 : ∀ (j k : Nat) (hj : j < xs.length) (v : Js),
      truthyOpt ((xs.get ⟨j, hj⟩).getOwn ("item_id")) = some v →
      k < xs.length → v ≠ .str (mintedId (itemNow k) k)) :
    ∀ (j k : Nat) (hj : j < items.length) (hk : k < items.length), j ≠ k →
      (items.get ⟨j, hj⟩).item_id ≠ (items.get ⟨k, hk⟩).item_id := by
  intro j k hj hk hjk
  have hlen := buildItemsFrom_ok_length hb
  have hj2 : j < xs.length := by omega
  have hk2 : k < xs.length := by omega
  have gj := buildItemsFrom_ok_get hb j hj2 hj
  have gk := buildItemsFrom_ok_get hb k hk2 hk
  rw [Nat.zero_add] at gj gk
  have hjid := (mapLineItem_ok_elim gj).2
  have hkid := (mapLineItem_ok_elim gk).2
  intro heq
  rw [hjid, hkid] at heq
  have heq2 : jsOr ((xs.get ⟨j, hj2⟩).getOwn ("item_id")) (.str (mintedId (itemNow j) j))
      = jsOr ((xs.get ⟨k, hk2⟩).getOwn ("item_id")) (.str (mintedId (itemNow k) k)) := heq
  rw [jsOr_eq_truthyOpt, jsOr_eq_truthyOpt] at heq2
  cases hcj : truthyOpt ((xs.get ⟨j, hj2⟩).getOwn ("item_id")) with
  | some v =>
    cases hck : truthyOpt ((xs.get ⟨k, hk2⟩).getOwn ("item_id")) with
    | some w =>
      rw [hcj, hck] at heq2
      exact H1 j k hj2 hk2 v w hjk hcj hck heq2
    | none =>
      rw [hcj, hck] at heq2
      exact H2 j k hj2 v hcj hk2 heq2
  | none =>
    cases hck : truthyOpt ((xs.get ⟨k, hk2⟩).getOwn ("item_id")) with
    | some w =>
      rw [hcj, hck] at heq2
      exact H2 k j hk2 w hck hj2 heq2.symm
    | none =>
      rw [hcj, hck] at heq2
      exact mintedId_ne hjk (Js.str.inj heq2)

/-- Witness for the amended C6 at a two-item list with one truthy and one
minted identifier. -/
theorem claim6_witness :
    (resolvedItem 5 0 liB).item_id ≠ (resolvedItem 5 1 (Js.obj [])).item_id := by
  have H1 : ∀ (j k : Nat) (hj : j < ([liB, Js.obj []] : List Js).length)
      (hk : k < ([liB, Js.obj []] : List Js).length) (v w : Js),
      j ≠ k → truthyOpt ((([liB, Js.obj []] : List Js).get ⟨j, hj⟩).getOwn ("item_id")) = some v →
      truthyOpt ((([liB, Js.obj []] : List Js).get ⟨k, hk⟩).getOwn ("item_id")) = some w →
      v ≠ w := by
    intro j k hj hk v w hjk hv hw
    simp at hj hk
    interval_cases j <;> interval_cases k
    · omega
    · exact absurd ((show (none : Option Js) = some w from hw)) (by simp)
    · exact absurd ((show (none : Option Js) = some v from hv)) (by simp)
    · omega
  have H2 : ∀ (j k : Nat) (hj : j < ([liB, Js.obj []] : List Js).length) (v : Js),
      truthyOpt ((([liB, Js.obj []] : List Js).get ⟨j, hj⟩).getOwn ("item_id")) = some v →
      k < ([liB, Js.obj []] : List Js).length → v ≠ .str (mintedId 5 k) := by
    intro j k hj v hv hk
    simp at hj hk
    interval_cases j
    · have hv2 : some (Js.str ("B")) = some v := hv
      rw [← Option.some.inj hv2]
      interval_cases k <;>
        · simp only [ne_eq, Js.str.injEq]
          decide
    · exact absurd ((show (none : Option Js) = some v from hv)) (by simp)
  have h := claim6_distinct_ids (fun _ => 5) [liB, Js.obj []]
      [resolvedItem 5 0 liB, resolvedItem 5 1 (Js.obj [])] rfl H1 H2 0 1
      (by simp) (by simp) (by omega)
  exact h
